import Mathlib

/-!
Verification of the Calendly extraction and reconciliation scripts.

This file shallowly embeds the core routines of the repository:

* `event_type_invitees.py` — the HTTP GET wrapper `_get` (timeout retry with
  exponential backoff), the cursor-following `_paginate`, the identifier
  dispatcher `get_event_type`, the per-status event collector
  `list_org_events`, and the invitee flattening loop of `run`;
* `match_email.py` — `DataMatcher.load_monday_data`, `load_calendly_data`
  and `match_data` (date-range filters and the email inner join);
* `download_data_monday.py` — `MondayDataProcessor._items_to_dataframe`.

The network, the clock and the datetime parser are external collaborators;
they are modelled as explicit oracle parameters, and the embedding records
the calls a routine issues as an explicit trace so that statements about
"which requests were made" can be proved.
-/

set_option autoImplicit false

namespace Calendly

/-- Query parameters of a GET request (a Python `dict` of string pairs). -/
abbrev Params := List (String × String)

/-- A JSON record, modelled as an association list of string fields.
A key that is absent from the list models a key absent from the dict. -/
abbrev Record := List (String × String)

/-- Python `d.get(k)`: the value of the first matching key, or `None`. -/
def pyGet (r : Record) (k : String) : Option String :=
  (r.find? (fun p => p.1 == k)).map (fun p => p.2)

/-- Python `s.split("/")[-1]`: the final path segment of a URI. -/
def lastSegment (s : String) : String :=
  (s.splitOn "/").getLastD ""

/-! The `_get` wrapper: timeout retry with exponential backoff.

`_get(url, params, attempt)` issues the request; on `ReadTimeout` it
re-raises once `attempt >= MAX_RETRIES`, otherwise sleeps `2 ** attempt`
seconds and recurses with `attempt + 1`.  Any other exception (including
the `HTTPError` from `raise_for_status`) propagates immediately.

The network is an oracle giving the outcome of each numbered attempt. -/

/-- The retry bound `MAX_RETRIES = 3` of `event_type_invitees.py`. -/
def MAX_RETRIES : Nat := 3

/-- Outcome of one HTTP attempt: a JSON body, a read timeout, or any
other failure (transport error or non-2xx status). -/
inductive Outcome where
  | success (body : Nat)
  | timeout
  | failure (msg : String)
  deriving DecidableEq

/-- How a `_get` call ends when it does not return a body. -/
inductive GetError where
  | timedOut
  | fatal (msg : String)
  deriving DecidableEq

/-- The body of `_get`, instrumented: result, number of requests issued,
and the list of backoff sleeps performed (in seconds, in order). -/
def getGo (resp : Nat → Outcome) (attempt : Nat) :
    Except GetError Nat × Nat × List Nat :=
  match resp attempt with
  | .success body => (.ok body, 1, [])
  | .failure msg => (.error (.fatal msg), 1, [])
  | .timeout =>
    if h : MAX_RETRIES ≤ attempt then
      (.error .timedOut, 1, [])
    else
      let rest := getGo resp (attempt + 1)
      (rest.1, rest.2.1 + 1, (2 ^ attempt) :: rest.2.2)
  termination_by MAX_RETRIES - attempt
  decreasing_by simp at h; omega

/-- A call `_get(url, params)`: the attempt counter starts at 1. -/
def getModel (resp : Nat → Outcome) : Except GetError Nat × Nat × List Nat :=
  getGo resp 1

/-! The `_paginate` loop: cursor-following collection walk.

```
out = []
while url:
    page = _get(url, params)
    out.extend(page["collection"])
    url = page.get("pagination", {}).get("next_page")
    params = None          # only on first request
return out
```

The server is an oracle `fetch : url → params → page`; the embedding also
returns the trace of `(url, params)` pairs passed to `_get`, and uses fuel
to make the (possibly divergent) `while` loop total.  `while url` is false
for Python `None` and for the empty string. -/

/-- A Calendly response page: its `collection` array and the optional
`pagination.next_page` cursor. -/
structure Page (α : Type) where
  collection : List α
  next_page : Option String
  deriving DecidableEq

/-- The `_paginate` loop.  `none` means the fuel ran out before the loop
terminated; `some (records, calls)` gives the concatenated collection and
the `(url, params)` of every `_get` issued, in order. -/
def paginateGo {α : Type} (fetch : String → Option Params → Page α) :
    Nat → Option String → Option Params →
    Option (List α × List (String × Option Params))
  | 0, _, _ => none
  | _ + 1, none, _ => some ([], [])
  | fuel + 1, some u, params =>
    if u.isEmpty then some ([], []) else
      let page := fetch u params
      match paginateGo fetch fuel page.next_page none with
      | none => none
      | some (rest, calls) =>
        some (page.collection ++ rest, (u, params) :: calls)

/-- The server serves a given chain of pages: the `i`-th chain entry
`(url_i, records_i)` is returned when `url_i` is fetched (the first fetch
carrying `params0`, every later one carrying `none`), with its cursor
pointing at `url_(i+1)`, and the last page carrying no cursor. -/
def servesChain {α : Type} (fetch : String → Option Params → Page α) :
    Option Params → List (String × List α) → Prop
  | _, [] => True
  | params0, (u, recs) :: rest =>
    fetch u params0 = ⟨recs, rest.head?.map (fun p => p.1)⟩ ∧
      servesChain fetch none rest

/-- The `_get` calls `_paginate` makes when walking a chain: the first with
the caller's params, all later ones with `None`. -/
def chainCalls {α : Type} (params0 : Option Params) :
    List (String × List α) → List (String × Option Params)
  | [] => []
  | (u, _) :: rest => (u, params0) :: chainCalls none rest

/-! Identifier dispatch (`get_event_type`), the per-status event collector
(`list_org_events`), and the `run` pipeline of `event_type_invitees.py`.
The network is an `Oracle`: the response to `users/me`, the resource
returned by a direct `_get`, and the full (already concatenated) result of
each `_paginate` call, keyed by the parameters it was issued with.  Each
routine also returns the trace of the calls it made, in order. -/

/-- The fixed base address `BASE = "https://api.calendly.com/"`. -/
def BASE : String := "https://api.calendly.com/"

/-- Python `s.startswith(pre)`, on the character sequences. -/
def pyStartsWith (s pre : String) : Bool :=
  pre.data.isPrefixOf s.data

/-- Membership in the character class of the regex `[0-9a-f\-]`. -/
def hexDashChar (c : Char) : Bool :=
  (decide ('0' ≤ c) && decide (c ≤ '9')) ||
    (decide ('a' ≤ c) && decide (c ≤ 'f')) || c == '-'

/-- Python `re.fullmatch(r"[0-9a-f\-]{36}", ident)` is not `None`. -/
def isUuidLike (s : String) : Bool :=
  s.data.length == 36 && s.data.all hexDashChar

/-- The `resource` object of the `users/me` response. -/
structure Resource where
  uri : String
  current_organization : String
  deriving DecidableEq

/-- An event-type resource (the fields the scripts read). -/
structure EventType where
  uri : String
  slug : String
  name : String
  deriving DecidableEq

/-- A scheduled-event resource (the fields the scripts read). -/
structure Event where
  uri : String
  event_type : String
  start_time : String
  deriving DecidableEq

/-- Query parameters of a `scheduled_events` pagination. -/
structure EvParams where
  organization : String
  status : String
  min_start_time : String
  count : Nat
  deriving DecidableEq

/-- One network interaction of the pipeline, at `_get`/`_paginate`
granularity. -/
inductive Call where
  | usersMe
  | direct (url : String)
  | listEventTypes (org : String)
  | listEvents (p : EvParams)
  | listInvitees (evUuid : String)
  deriving DecidableEq

/-- The remote server: responses to every request the pipeline can issue. -/
structure Oracle where
  usersMe : Resource
  fetchResource : String → EventType
  orgEventTypes : String → List EventType
  events : EvParams → List Event
  invitees : String → List Record

/-- Dispatcher `get_event_type(org_uri, ident)`: full URI first, then the
36-character hex-or-hyphen shape, else a paginated slug search scoped to
the organization.  Returns the resolved event type (or `none`) and the
trace of requests issued. -/
def get_event_type (o : Oracle) (org_uri ident : String) :
    Option EventType × List Call :=
  if pyStartsWith ident "https://" then
    (some (o.fetchResource ident), [.direct ident])
  else if isUuidLike ident then
    (some (o.fetchResource (BASE ++ "event_types/" ++ ident)),
      [.direct (BASE ++ "event_types/" ++ ident)])
  else
    ((o.orgEventTypes org_uri).find? (fun et => et.slug == ident),
      [.listEventTypes org_uri])

/-- The status partition `("active", "canceled")` of `list_org_events`. -/
def STATUSES : List String := ["active", "canceled"]

/-- Collector `list_org_events(org_uri, since_iso)`: one paginated fetch
per status, results concatenated in status order, each request carrying
`min_start_time = since_iso` and `count = 100`. -/
def list_org_events (o : Oracle) (org_uri since_iso : String) :
    List Event × List Call :=
  STATUSES.foldl
    (fun acc status =>
      let p : EvParams := ⟨org_uri, status, since_iso, 100⟩
      (acc.1 ++ o.events p, acc.2 ++ [Call.listEvents p]))
    ([], [])

/-! The invitee flattening loop of `run` (its step 2).  The dict literal
appended for each invitee is embedded as an explicit field map: each
output column paired with where its value comes from.  All invitee fields
are read with `iv.get(...)` (absent key gives `None`) except `iv["uri"]`,
a bracket access that raises `KeyError` when the key is absent. -/

/-- Where an output column's value comes from in the flattening loop. -/
inductive Src where
  | evUuid
  | evStart
  | ivUriSeg
  | fromGet (key : String)
  deriving DecidableEq

/-- The dict literal of `run`'s invitee loop, in declaration order. -/
def invitee_field_map : List (String × Src) :=
  [("event_uuid", .evUuid),
   ("event_start", .evStart),
   ("event_end", .fromGet "end_time"),
   ("location", .fromGet "location"),
   ("event_created", .fromGet "created_at"),
   ("status", .fromGet "status"),
   ("canceled_by", .fromGet "canceled_by"),
   ("cancellation_reason", .fromGet "cancellation_reason"),
   ("invitee_uuid", .ivUriSeg),
   ("user_name", .fromGet "user_name"),
   ("user_email", .fromGet "user_email"),
   ("team", .fromGet "team"),
   ("invitee_name", .fromGet "invitee_name"),
   ("invitee_first_name", .fromGet "invitee_first_name"),
   ("invitee_last_name", .fromGet "invitee_last_name"),
   ("invitee_email", .fromGet "invitee_email"),
   ("invitee_time_zone", .fromGet "invitee_time_zone"),
   ("invitee_accepted_marketing_emails", .fromGet "invitee_accepted_marketing_emails"),
   ("text_reminder_number", .fromGet "text_reminder_number"),
   ("event_type_name", .fromGet "event_type_name"),
   ("question_1", .fromGet "question_1"),
   ("response_1", .fromGet "response_1"),
   ("question_2", .fromGet "question_2"),
   ("response_2", .fromGet "response_2"),
   ("question_3", .fromGet "question_3"),
   ("response_3", .fromGet "response_3"),
   ("question_4", .fromGet "question_4"),
   ("response_4", .fromGet "response_4"),
   ("question_5", .fromGet "question_5"),
   ("response_5", .fromGet "response_5"),
   ("utm_campaign", .fromGet "utm_campaign"),
   ("utm_source", .fromGet "utm_source"),
   ("utm_medium", .fromGet "utm_medium"),
   ("utm_term", .fromGet "utm_term"),
   ("utm_content", .fromGet "utm_content"),
   ("salesforce_uuid", .fromGet "salesforce_uuid"),
   ("event_price", .fromGet "event_price"),
   ("payment_currency", .fromGet "payment_currency"),
   ("guest_emails", .fromGet "guest_emails"),
   ("invitee_reconfirmed", .fromGet "invitee_reconfirmed"),
   ("marked_as_no_show", .fromGet "marked_as_no_show"),
   ("meeting_notes", .fromGet "meeting_notes"),
   ("group", .fromGet "group"),
   ("invitee_scheduled_by", .fromGet "invitee_scheduled_by"),
   ("scheduling_method", .fromGet "scheduling_method")]

/-- Reads one source field for an output column.  `evUuid` and `evStart`
are precomputed from the event; `ivUriSeg` is
`iv["uri"].split("/")[-1]`; `fromGet key` is `iv.get(key)`. -/
def evalSrc (ev_uuid event_start ivUri : String) (iv : Record) :
    Src → Option String
  | .evUuid => some ev_uuid
  | .evStart => some event_start
  | .ivUriSeg => some (lastSegment ivUri)
  | .fromGet key => pyGet iv key

/-- The flattened output row for one invitee, given its `uri` value. -/
def flattenedRow (ev_uuid event_start ivUri : String) (iv : Record) :
    List (String × Option String) :=
  invitee_field_map.map (fun p => (p.1, evalSrc ev_uuid event_start ivUri iv p.2))

/-- One iteration of the invitee loop: the bracket access `iv["uri"]`
raises `KeyError` when absent; every other field is read with `.get`. -/
def inviteeRow (ev_uuid event_start : String) (iv : Record) :
    Except String (List (String × Option String)) :=
  match pyGet iv "uri" with
  | none => .error "KeyError: uri"
  | some ivUri => .ok (flattenedRow ev_uuid event_start ivUri iv)

/-- The outer loop of `run`'s step 2: per matching event, list its
invitees and flatten each one; the trace records the invitee listings. -/
def collectRows (o : Oracle) :
    List Event →
      Except String (List (List (String × Option String))) × List Call
  | [] => (.ok [], [])
  | ev :: rest =>
    let ev_uuid := lastSegment ev.uri
    match (o.invitees ev_uuid).mapM (fun iv => inviteeRow ev_uuid ev.start_time iv) with
    | .error e => (.error e, [Call.listInvitees ev_uuid])
    | .ok rows =>
      let r := collectRows o rest
      (r.1.map (fun rrows => rows ++ rrows), Call.listInvitees ev_uuid :: r.2)

/-- Python truthiness of `not TOKEN`: `None` and the empty string are
both falsy. -/
def tokenFalsy : Option String → Bool
  | none => true
  | some s => s.isEmpty

/-- The `run(ident, days)` pipeline up to the collected rows: credential
check, `users/me`, identifier resolution, per-status event collection,
exact-equality event-type filter, and invitee flattening.  An `.error`
result models `sys.exit(message)` (a fatal non-zero exit) or an uncaught
exception; the second component is the trace of network calls issued. -/
def run (token : Option String) (o : Oracle) (ident : String)
    (since_iso : String) :
    Except String (List (List (String × Option String))) × List Call :=
  if tokenFalsy token then
    (.error "CALENDLY_API_KEY must be set in your environment", [])
  else
    let org_uri := o.usersMe.current_organization
    let et := get_event_type o org_uri ident
    match et.1 with
    | none =>
      (.error ("No event-type \"" ++ ident ++ "\" found in this org"),
        Call.usersMe :: et.2)
    | some et0 =>
      let evs := list_org_events o org_uri (since_iso ++ "Z")
      let events := evs.1.filter (fun ev => ev.event_type == et0.uri)
      let rows := collectRows o events
      (rows.1, Call.usersMe :: et.2 ++ evs.2 ++ rows.2)

/-! The reconciliation engine of `match_email.py` (`DataMatcher`).  CSV
rows are association lists; the pandas comparisons translate as follows:
the Monday filter compares the raw date strings lexicographically (the
CSV column holds strings), while the Calendly filter converts
`event_start` with `pd.to_datetime`, modelled by an explicit parse
oracle into a totally ordered value.  A row whose filter column is
missing is excluded (a NaN comparison is false). -/

/-- A flattened CSV row. -/
abbrev Row := List (String × String)

/-- The join condition of `match_data`: `invitee_email` (left, Calendly)
equals `Email` (right, Monday), exact string equality when both cells
hold a value.  A missing key models a NaN cell (an empty CSV cell), and
`pd.merge` treats NaN join keys as equal to each other: two NaN cells
match, while a NaN cell never matches a string. -/
def emailEq (ra rb : Row) : Bool :=
  match pyGet ra "invitee_email", pyGet rb "Email" with
  | some a, some b => a == b
  | none, none => true
  | _, _ => false

/-- Lexicographic (code-point) comparison of character sequences: the
order Python uses to compare strings. -/
def listLt : List Char → List Char → Bool
  | [], [] => false
  | [], _ :: _ => true
  | _ :: _, [] => false
  | a :: as, b :: bs =>
    if a < b then true else if b < a then false else listLt as bs

/-- Python `a <= b` on strings (lexicographic by code point). -/
def pyStrLe (a b : String) : Bool :=
  listLt a.data b.data || a == b

/-- The filter of `load_monday_data`:
`df[sort_columns[0]] >= start_date` and `<= end_date` (string order). -/
def monInRange (start_date end_date : String) (sort_columns : List String)
    (r : Row) : Bool :=
  match pyGet r (sort_columns.headD "") with
  | some v => pyStrLe start_date v && pyStrLe v end_date
  | none => false

/-- The filter of `load_calendly_data`: `event_start` parsed with
`pd.to_datetime`, then `>= start_date` and `<= end_date`. -/
def calInRange (parse : String → Int) (start_date end_date : String)
    (r : Row) : Bool :=
  match pyGet r "event_start" with
  | some v =>
    decide (parse start_date ≤ parse v) && decide (parse v ≤ parse end_date)
  | none => false

/-- `DataMatcher.load_monday_data`: read the CSV, keep rows in range. -/
def load_monday_data (rows : List Row) (start_date end_date : String)
    (sort_columns : List String) : List Row :=
  rows.filter (monInRange start_date end_date sort_columns)

/-- `DataMatcher.load_calendly_data`: concatenate the two Calendly CSVs,
then keep rows whose `event_start` is in range. -/
def load_calendly_data (parse : String → Int) (ceint ce : List Row)
    (start_date end_date : String) : List Row :=
  (ceint ++ ce).filter (calInRange parse start_date end_date)

/-- `DataMatcher.match_data(monday_df, calendly_df)`:
`pd.merge(calendly_df, monday_df, left_on='invitee_email',
right_on='Email', how='inner')` — every key-equal (calendly, monday) row
pair yields one output row holding the left row's columns followed by the
right row's. -/
def match_data (monday_df calendly_df : List Row) : List Row :=
  calendly_df.flatMap
    (fun ra => (monday_df.filter (fun rb => emailEq ra rb)).map (fun rb => ra ++ rb))

/-- All ordered pairs of two lists (used to state the join's cardinality). -/
def allPairs {α β : Type} (xs : List α) (ys : List β) : List (α × β) :=
  xs.flatMap (fun a => ys.map (fun b => (a, b)))

/-- The `main()` flow of `match_email.py`: filter each dataset
independently, then inner-join on email. -/
def reconcile (parse : String → Int) (monday ceint ce : List Row)
    (start_date end_date : String) (sort_columns : List String) : List Row :=
  match_data (load_monday_data monday start_date end_date sort_columns)
    (load_calendly_data parse ceint ce start_date end_date)

/-! `MondayDataProcessor._items_to_dataframe` of `download_data_monday.py`.
An item is a Monday.com record: its `id`, `name`, and `column_values`
(each with an `id` and an optional `text`, read as `.get('text', '')`).
A missing `column_values` key behaves like an empty list (`not
items[0].get('column_values')` is true for both, and the later
`'column_values' in item` guard just skips the loop).  The result models
`pd.DataFrame(data, columns=headers)`: the header list plus one cell row
per item, each row projected onto the headers (a header missing from an
item's dict gives NaN, modelled `none`). -/

/-- One entry of an item's `column_values`. -/
structure ColumnValue where
  id : String
  text : Option String
  deriving DecidableEq

/-- A Monday.com item. -/
structure Item where
  id : String
  name : String
  column_values : List ColumnValue
  deriving DecidableEq

/-- Lookup in a Python dict built by successive assignment: the last
assignment to a key wins. -/
def lookupLast (d : List (String × Option String)) (k : String) :
    Option (Option String) :=
  (d.reverse.find? (fun p => p.1 == k)).map (fun p => p.2)

/-- The per-item dict built by the loop: `Item ID`, `Item Name`, then one
entry per column value, `column.get('text', '')`. -/
def itemRowDict (it : Item) : List (String × Option String) :=
  [("Item ID", some it.id), ("Item Name", some it.name)] ++
    it.column_values.map (fun c => (c.id, some (c.text.getD "")))

/-- `_items_to_dataframe(items)`: header names and cell rows. -/
def items_to_dataframe (items : List Item) :
    List String × List (List (String × Option String)) :=
  match items with
  | [] => ([], [])
  | first :: _ =>
    if first.column_values.isEmpty then ([], [])
    else
      let column_ids := first.column_values.map (fun c => c.id)
      let headers := ["Item ID", "Item Name"] ++ column_ids
      let data := items.map itemRowDict
      (headers,
        data.map (fun row => headers.map (fun h => (h, (lookupLast row h).getD none))))

/-! Concrete instances used by the witness theorems. -/

/-- A two-page server: page "u1" points at page "u2", which is last. -/
def fetchChainEx : String → Option Params → Page Nat :=
  fun u _ => if u = "u1" then ⟨[1, 2], some "u2"⟩ else ⟨[3], none⟩

/-- The corresponding two-page chain. -/
def chainEx : List (String × List Nat) := [("u1", [1, 2]), ("u2", [3])]

/-- First-call query parameters for the pagination witness. -/
def paramsEx : Params := [("organization", "org1"), ("count", "100")]

/-- A small concrete server for the dispatcher witnesses. -/
def oracleEx : Oracle where
  usersMe := ⟨"https://api.calendly.com/users/U1",
    "https://api.calendly.com/organizations/O1"⟩
  fetchResource := fun url => ⟨url, "direct", "Direct"⟩
  orgEventTypes := fun _ =>
    [⟨"https://api.calendly.com/event_types/ET1", "my-slug", "My Slug"⟩]
  events := fun _ => []
  invitees := fun _ => []

/-- A datetime parse oracle for the boundary instances: maps the three
date strings of interest to consecutive days. -/
def parseEx : String → Int := fun s =>
  if s = "2025-06-24" then 24 else if s = "2025-06-25" then 25
  else if s = "2025-06-26" then 26 else 0

/-- A Calendly row whose timestamp sits exactly on the upper boundary. -/
def calRowAtEnd : Row :=
  [("invitee_email", "a@x.com"), ("event_start", "2025-06-25")]

/-- A Calendly row one day past the upper boundary. -/
def calRowBeyond : Row :=
  [("invitee_email", "a@x.com"), ("event_start", "2025-06-26")]

/-- A Monday row whose date sits exactly on the upper boundary. -/
def monRowAtEnd : Row :=
  [("Email", "a@x.com"), ("Date Created", "2025-06-25")]

/-- A Monday row one day past the upper boundary. -/
def monRowBeyond : Row :=
  [("Email", "a@x.com"), ("Date Created", "2025-06-26")]

/-- An invitee record carrying its `uri` but missing most fields. -/
def ivEx : Record :=
  [("uri", "https://api.calendly.com/scheduled_events/E1/invitees/INV1"),
   ("invitee_email", "a@x.com")]

theorem chainCalls_length {α : Type} (params0 : Option Params)
    (chain : List (String × List α)) :
    (chainCalls params0 chain).length = chain.length := by
  induction chain generalizing params0 with
  | nil => rfl
  | cons hd tl ih => simp [chainCalls, ih]

theorem chainCalls_tail_params {α : Type} (params0 : Option Params)
    (chain : List (String × List α)) :
    ∀ q ∈ (chainCalls params0 chain).tail, q.2 = none := by
  induction chain generalizing params0 with
  | nil => intro q hq; simp [chainCalls] at hq
  | cons hd tl ih =>
    intro q hq
    simp only [chainCalls, List.tail_cons] at hq
    cases tl with
    | nil => simp [chainCalls] at hq
    | cons hd' tl' =>
      simp only [chainCalls] at hq
      rcases List.mem_cons.mp hq with h | h
      · simp [h]
      · exact ih none q (by simp only [chainCalls, List.tail_cons]; exact h)

theorem paginate_servesChain {α : Type}
    (fetch : String → Option Params → Page α) :
    ∀ (chain : List (String × List α)) (params0 : Option Params),
    (∀ p ∈ chain, p.1.isEmpty = false) →
    servesChain fetch params0 chain →
    paginateGo fetch (chain.length + 1) (chain.head?.map (fun p => p.1)) params0
      = some ((chain.map (fun p => p.2)).flatten, chainCalls params0 chain) := by
  intro chain
  induction chain with
  | nil =>
    intro params0 _ _
    simp [paginateGo, chainCalls]
  | cons hd tl ih =>
    intro params0 hne hserve
    obtain ⟨hfetch, hrest⟩ := hserve
    have hhd : hd.1.isEmpty = false := hne hd (List.mem_cons_self hd tl)
    have htl : ∀ p ∈ tl, p.1.isEmpty = false :=
      fun p hp => hne p (List.mem_cons_of_mem hd hp)
    have ihtl := ih none htl hrest
    simp only [List.head?_cons, Option.map_some]
    show paginateGo fetch (tl.length + 1 + 1) (some hd.1) params0 = _
    rw [paginateGo]
    simp only [hhd, Bool.false_eq_true, if_false, hfetch]
    rw [ihtl]
    simp [chainCalls]

/-- C1: for every chain of N pages in which each page carries a cursor to
the next and the last carries none, `_paginate` returns exactly the
concatenation of the pages' collections (order preserved across and
within pages), issues exactly N `_get` calls, and sends the caller's
query parameters only on the first call, replaced by `None` on every
subsequent cursor-addressed call. -/
theorem paginate_concatenates_pages_one_call_each {α : Type}
    (fetch : String → Option Params → Page α)
    (chain : List (String × List α)) (params0 : Params)
    (hurls : ∀ p ∈ chain, p.1.isEmpty = false)
    (hserve : servesChain fetch (some params0) chain) :
    paginateGo fetch (chain.length + 1) (chain.head?.map (fun p => p.1))
        (some params0)
      = some ((chain.map (fun p => p.2)).flatten, chainCalls (some params0) chain)
    ∧ (chainCalls (some params0) chain).length = chain.length
    ∧ ∀ q ∈ (chainCalls (some params0) chain).tail, q.2 = none :=
  ⟨paginate_servesChain fetch chain (some params0) hurls hserve,
   chainCalls_length _ _, chainCalls_tail_params _ _⟩

/-- Witness: the pagination theorem applied to the concrete two-page
chain `chainEx` served by `fetchChainEx`. -/
theorem paginate_concatenates_pages_witness :
    paginateGo fetchChainEx (chainEx.length + 1)
        (chainEx.head?.map (fun p => p.1)) (some paramsEx)
      = some ((chainEx.map (fun p => p.2)).flatten,
          chainCalls (some paramsEx) chainEx)
    ∧ (chainCalls (some paramsEx) chainEx).length = chainEx.length := by
  have h := paginate_concatenates_pages_one_call_each
    fetchChainEx chainEx paramsEx (by decide) ⟨rfl, rfl, trivial⟩
  exact ⟨h.1, h.2.1⟩

/-- C2: a request that times out on every attempt sleeps `2 ^ attempt`
seconds between attempts and raises the timeout after exactly
`MAX_RETRIES = 3` attempts with no successful return; a non-timeout
failure on the first attempt is raised immediately, with one request
issued and no sleep. -/
theorem get_retries_timeouts_raises_others_immediately
    (resp : Nat → Outcome) (msg : String) :
    ((∀ a, resp a = .timeout) →
      getModel resp = (.error .timedOut, MAX_RETRIES, [2 ^ 1, 2 ^ 2]))
    ∧ (resp 1 = .failure msg →
      getModel resp = (.error (.fatal msg), 1, [])) := by
  constructor
  · intro h
    simp [getModel, getGo, h, MAX_RETRIES]
  · intro h
    simp [getModel, getGo, h]

/-- Witness: the retry theorem at an always-timing-out server and at a
server that returns HTTP 404 on the first attempt. -/
theorem get_retries_witness :
    getModel (fun _ => Outcome.timeout)
      = (.error .timedOut, MAX_RETRIES, [2 ^ 1, 2 ^ 2])
    ∧ getModel (fun _ => Outcome.failure "HTTP 404")
      = (.error (.fatal "HTTP 404"), 1, []) :=
  ⟨(get_retries_timeouts_raises_others_immediately (fun _ => .timeout) "x").1
      (fun _ => rfl),
   (get_retries_timeouts_raises_others_immediately
      (fun _ => .failure "HTTP 404") "HTTP 404").2 rfl⟩

/-- C8: with the credential absent from the environment, `run` terminates
with a fatal exit carrying a diagnostic message before issuing any
network call: the result is the error message and the call trace is
empty. -/
theorem run_missing_credential_no_network
    (o : Oracle) (ident since_iso : String) :
    run none o ident since_iso
      = (.error "CALENDLY_API_KEY must be set in your environment", []) :=
  rfl

/-- C7: `list_org_events` issues exactly one paginated fetch per status in
the fixed enumeration ("active", "canceled"), each carrying the lower
bound as `min_start_time`, and returns the concatenation of the
per-status results with no deduplication; the caller's filter keeps
exactly the events whose `event_type` equals the resolved uri, by exact
equality. -/
theorem list_org_events_per_status_then_exact_filter
    (o : Oracle) (org_uri since_iso et_uri : String) :
    list_org_events o org_uri since_iso
      = (o.events ⟨org_uri, "active", since_iso, 100⟩
           ++ o.events ⟨org_uri, "canceled", since_iso, 100⟩,
         [Call.listEvents ⟨org_uri, "active", since_iso, 100⟩,
          Call.listEvents ⟨org_uri, "canceled", since_iso, 100⟩])
    ∧ ∀ ev, ev ∈ (list_org_events o org_uri since_iso).1.filter
          (fun e => e.event_type == et_uri) ↔
        ev ∈ (list_org_events o org_uri since_iso).1 ∧ ev.event_type = et_uri := by
  refine ⟨rfl, ?_⟩
  intro ev
  simp [List.mem_filter]

/-- C3: `get_event_type` dispatches in priority order: a full-URI
identifier is fetched directly (one direct call, no org-scoped list); a
36-character hex-hyphen identifier is fetched directly via a constructed
address; any other identifier triggers exactly one org-scoped paginated
list, and the result is the first listed entity whose slug equals the
identifier exactly, or `None` when no slug matches, with no error. -/
theorem get_event_type_dispatch_priority (o : Oracle) (org_uri ident : String) :
    (pyStartsWith ident "https://" = true →
      get_event_type o org_uri ident
        = (some (o.fetchResource ident), [.direct ident]))
    ∧ (pyStartsWith ident "https://" = false → isUuidLike ident = true →
      get_event_type o org_uri ident
        = (some (o.fetchResource (BASE ++ "event_types/" ++ ident)),
           [.direct (BASE ++ "event_types/" ++ ident)]))
    ∧ (pyStartsWith ident "https://" = false → isUuidLike ident = false →
      get_event_type o org_uri ident
        = ((o.orgEventTypes org_uri).find? (fun et => et.slug == ident),
           [.listEventTypes org_uri])
      ∧ (∀ et,
          (o.orgEventTypes org_uri).find? (fun et => et.slug == ident) = some et →
          et.slug = ident ∧ et ∈ o.orgEventTypes org_uri)
      ∧ ((∀ et ∈ o.orgEventTypes org_uri, et.slug ≠ ident) →
          (o.orgEventTypes org_uri).find? (fun et => et.slug == ident) = none)) := by
  refine ⟨?_, ?_, ?_⟩
  · intro h
    simp [get_event_type, h]
  · intro h1 h2
    simp [get_event_type, h1, h2]
  · intro h1 h2
    refine ⟨by simp [get_event_type, h1, h2], ?_, ?_⟩
    · intro et hfind
      have hp := List.find?_some hfind
      have hm := List.mem_of_find?_eq_some hfind
      exact ⟨by simpa using hp, hm⟩
    · intro hall
      rw [List.find?_eq_none]
      intro et hmem
      simpa using hall et hmem

/-- Witness: the dispatcher at a full URI, at a well-formed 36-character
identifier, and at a slug, against the concrete server `oracleEx`. -/
theorem get_event_type_dispatch_witness :
    get_event_type oracleEx "org" "https://api.calendly.com/event_types/X"
      = (some (oracleEx.fetchResource "https://api.calendly.com/event_types/X"),
         [.direct "https://api.calendly.com/event_types/X"])
    ∧ get_event_type oracleEx "org" "0123456789abcdef0123456789abcdef0123"
      = (some (oracleEx.fetchResource
            (BASE ++ "event_types/" ++ "0123456789abcdef0123456789abcdef0123")),
         [.direct (BASE ++ "event_types/" ++ "0123456789abcdef0123456789abcdef0123")])
    ∧ get_event_type oracleEx "org" "my-slug"
      = ((oracleEx.orgEventTypes "org").find? (fun et => et.slug == "my-slug"),
         [.listEventTypes "org"]) := by
  refine ⟨?_, ?_, ?_⟩
  · exact (get_event_type_dispatch_priority oracleEx "org" _).1 (by decide)
  · exact (get_event_type_dispatch_priority oracleEx "org" _).2.1
      (by decide) (by decide)
  · exact ((get_event_type_dispatch_priority oracleEx "org" _).2.2
      (by decide) (by decide)).1

/-- C9: every identifier of exactly 36 characters drawn from lowercase
hex digits and hyphens — whatever the hyphen placement, well-formed UUID
or not — that is not a full URI is dispatched to a direct fetch of a
constructed address, so an event-type slug of that shape never reaches
the slug-search branch. -/
theorem uuid_shaped_ident_gets_direct_fetch
    (o : Oracle) (org_uri ident : String)
    (hpre : pyStartsWith ident "https://" = false)
    (hlen : ident.data.length = 36)
    (hchars : ident.data.all hexDashChar = true) :
    get_event_type o org_uri ident
      = (some (o.fetchResource (BASE ++ "event_types/" ++ ident)),
         [.direct (BASE ++ "event_types/" ++ ident)])
    ∧ ∀ org', Call.listEventTypes org' ∉ (get_event_type o org_uri ident).2 := by
  have huuid : isUuidLike ident = true := by simp [isUuidLike, hlen, hchars]
  constructor
  · simp [get_event_type, hpre, huuid]
  · intro org'
    simp [get_event_type, hpre, huuid]

/-- Witness: a string of 36 hyphens — the uuid shape with arbitrary
hyphen placement, not a well-formed UUID — is fetched directly. -/
theorem uuid_shaped_ident_witness :
    get_event_type oracleEx "org" "------------------------------------"
      = (some (oracleEx.fetchResource
            (BASE ++ "event_types/" ++ "------------------------------------")),
         [.direct (BASE ++ "event_types/" ++ "------------------------------------")]) :=
  (uuid_shaped_ident_gets_direct_fetch oracleEx "org"
    "------------------------------------" (by decide) (by decide) (by decide)).1

/-- C4 counterexample: the claim says a row is emitted only for pairs
whose `invitee_email` and `Email` values are equal as strings and that
every row with no such counterpart is dropped; but `pd.merge` matches
NaN join keys with each other, so a Calendly row with no
`invitee_email` cell and a Monday row with no `Email` cell — no
string-equal counterpart on either side — are joined into an output
row instead of being dropped. -/
theorem match_data_nan_keys_counterexample :
    match_data [[("w", "2")]] [[("v", "1")]] = [[("v", "1"), ("w", "2")]]
    ∧ pyGet [("v", "1")] "invitee_email" = none
    ∧ pyGet [("w", "2")] "Email" = none :=
  ⟨rfl, rfl, rfl⟩

/-- C4 (amended): `match_data` emits exactly one output row for every
(calendly, monday) pair whose join keys match under pandas merge key
equality — equal strings when both cells are present, or both cells
missing (NaN matches NaN) — each row the left row's columns followed by
the right's — and drops every row with no such counterpart; on the
spec's example it yields the single matched row, many-to-many matches
are all retained, matching of present values is case-sensitive, and a
NaN-keyed pair is joined. -/
theorem match_data_pandas_inner_join (monday_df calendly_df : List Row) :
    match_data monday_df calendly_df
      = ((allPairs calendly_df monday_df).filter
          (fun p => emailEq p.1 p.2)).map (fun p => p.1 ++ p.2)
    ∧ match_data
        [[("Email", "a@x.com"), ("w", "2")], [("Email", "b@x.com"), ("w", "3")]]
        [[("invitee_email", "a@x.com"), ("v", "1")]]
      = [[("invitee_email", "a@x.com"), ("v", "1"), ("Email", "a@x.com"), ("w", "2")]]
    ∧ match_data
        [[("Email", "a@x.com"), ("w", "2")], [("Email", "a@x.com"), ("w", "3")]]
        [[("invitee_email", "a@x.com"), ("v", "1")],
         [("invitee_email", "a@x.com"), ("v", "2")]]
      = [[("invitee_email", "a@x.com"), ("v", "1"), ("Email", "a@x.com"), ("w", "2")],
         [("invitee_email", "a@x.com"), ("v", "1"), ("Email", "a@x.com"), ("w", "3")],
         [("invitee_email", "a@x.com"), ("v", "2"), ("Email", "a@x.com"), ("w", "2")],
         [("invitee_email", "a@x.com"), ("v", "2"), ("Email", "a@x.com"), ("w", "3")]]
    ∧ match_data [[("Email", "A@x.com"), ("w", "2")]]
        [[("invitee_email", "a@x.com"), ("v", "1")]]
      = []
    ∧ match_data [[("w", "2")]] [[("v", "1")]]
      = [[("v", "1"), ("w", "2")]] := by
  refine ⟨?_, rfl, rfl, rfl, rfl⟩
  induction calendly_df with
  | nil => rfl
  | cons ra rest ih =>
    have hl : match_data monday_df (ra :: rest)
        = ((monday_df.filter (fun rb => emailEq ra rb)).map (fun rb => ra ++ rb))
          ++ match_data monday_df rest := rfl
    have hr : allPairs (ra :: rest) monday_df
        = monday_df.map (fun b => (ra, b)) ++ allPairs rest monday_df := rfl
    rw [hl, ih, hr, List.filter_append, List.map_append, List.filter_map,
      List.map_map]
    rfl

/-- C6: the date-range filters are applied to each dataset independently
before the join — a row is a constituent of some matched row exactly when
it is in range, so out-of-range rows never contribute — and the upper
boundary is inclusive: a row whose timestamp equals `end_date` passes its
filter, while a row one day beyond is dropped, on both the Calendly side
(parsed timestamps) and the Monday side (string comparison). -/
theorem reconcile_filters_each_side_before_join
    (parse : String → Int) (monday ceint ce : List Row)
    (start_date end_date : String) (sort_columns : List String) :
    (∀ r, r ∈ reconcile parse monday ceint ce start_date end_date sort_columns ↔
      ∃ ra, (ra ∈ ceint ++ ce ∧ calInRange parse start_date end_date ra = true) ∧
        ∃ rb, (rb ∈ monday ∧ monInRange start_date end_date sort_columns rb = true)
          ∧ emailEq ra rb = true ∧ ra ++ rb = r)
    ∧ load_calendly_data parseEx [calRowAtEnd] [] "2025-06-24" "2025-06-25"
      = [calRowAtEnd]
    ∧ load_calendly_data parseEx [calRowBeyond] [] "2025-06-24" "2025-06-25"
      = []
    ∧ load_monday_data [monRowAtEnd] "2025-06-01" "2025-06-25"
        ["Date Created", "Sales Call Date"]
      = [monRowAtEnd]
    ∧ load_monday_data [monRowBeyond] "2025-06-01" "2025-06-25"
        ["Date Created", "Sales Call Date"]
      = [] := by
  refine ⟨?_, rfl, rfl, rfl, rfl⟩
  intro r
  simp only [reconcile, match_data, load_monday_data, load_calendly_data,
    List.mem_flatMap, List.mem_map, List.mem_filter]
  constructor
  · rintro ⟨ra, ⟨hra, hcal⟩, rb, ⟨⟨hrb, hmon⟩, hkey⟩, hrow⟩
    exact ⟨ra, ⟨hra, hcal⟩, rb, ⟨hrb, hmon⟩, hkey, hrow⟩
  · rintro ⟨ra, ⟨hra, hcal⟩, rb, ⟨hrb, hmon⟩, hkey, hrow⟩
    exact ⟨ra, ⟨hra, hcal⟩, rb, ⟨⟨hrb, hmon⟩, hkey⟩, hrow⟩

/-- C5 counterexample: an invitee record with no `uri` field makes the
flattening raise a `KeyError` — `iv["uri"]` is a bracket access — rather
than yield a row with a null in that column, so it is not true that every
mapped source field defaults to null when absent. -/
theorem flatten_missing_uri_raises :
    inviteeRow "EV1" "2025-01-01T00:00:00" [("invitee_email", "a@x.com")]
      = .error "KeyError: uri" :=
  rfl

/-- C5 (amended): when the invitee record carries its `uri` field, the
flattening succeeds; every `.get`-read source field that is absent yields
null for its output column (never an error), output columns appear in the
declared field-map order, and the invitee identifier column holds the
final path segment of the invitee's reference URI.  The `uri` field
itself is the one mapped field that is required: its absence raises. -/
theorem flatten_defaults_missing_fields_to_null
    (ev_uuid event_start : String) (iv : Record) (ivUri : String)
    (h : pyGet iv "uri" = some ivUri) :
    inviteeRow ev_uuid event_start iv
      = .ok (flattenedRow ev_uuid event_start ivUri iv)
    ∧ (flattenedRow ev_uuid event_start ivUri iv).map (fun p => p.1)
      = invitee_field_map.map (fun p => p.1)
    ∧ (∀ name key, (name, Src.fromGet key) ∈ invitee_field_map →
        pyGet iv key = none →
        (name, (none : Option String)) ∈ flattenedRow ev_uuid event_start ivUri iv)
    ∧ ("invitee_uuid", some (lastSegment ivUri))
        ∈ flattenedRow ev_uuid event_start ivUri iv := by
  refine ⟨by simp [inviteeRow, h], by simp [flattenedRow], ?_, ?_⟩
  · intro name key hmem hnone
    exact List.mem_map.mpr ⟨(name, Src.fromGet key), hmem, by simp [evalSrc, hnone]⟩
  · exact List.mem_map.mpr ⟨("invitee_uuid", Src.ivUriSeg), by decide, by simp [evalSrc]⟩

/-- Witness: flattening the concrete record `ivEx` (which has `uri` but
no `user_email`) succeeds, defaults the `user_email` column to null, and
stores the last path segment of the URI in `invitee_uuid`. -/
theorem flatten_defaults_witness :
    inviteeRow "E1" "2025-01-01T00:00:00" ivEx
      = .ok (flattenedRow "E1" "2025-01-01T00:00:00"
          "https://api.calendly.com/scheduled_events/E1/invitees/INV1" ivEx)
    ∧ ("user_email", (none : Option String))
        ∈ flattenedRow "E1" "2025-01-01T00:00:00"
            "https://api.calendly.com/scheduled_events/E1/invitees/INV1" ivEx
    ∧ ("invitee_uuid", some (lastSegment
          "https://api.calendly.com/scheduled_events/E1/invitees/INV1"))
        ∈ flattenedRow "E1" "2025-01-01T00:00:00"
            "https://api.calendly.com/scheduled_events/E1/invitees/INV1" ivEx := by
  have h := flatten_defaults_missing_fields_to_null
    "E1" "2025-01-01T00:00:00" ivEx
    "https://api.calendly.com/scheduled_events/E1/invitees/INV1" rfl
  exact ⟨h.1, h.2.2.1 "user_email" "user_email" (by decide) rfl, h.2.2.2⟩

/-- C10: `_items_to_dataframe` derives the output columns solely from the
first item: a first item with no `column_values` gives an empty table
even when later items carry data; the header set is independent of the
tail; otherwise the headers are `Item ID`, `Item Name` and the first
item's column ids, in order, and every output row has exactly those
columns — so a column appearing only in later items is absent. -/
theorem items_to_dataframe_columns_from_first_item :
    (∀ (id name : String) (rest : List Item),
      items_to_dataframe (⟨id, name, []⟩ :: rest) = ([], []))
    ∧ (∀ (it : Item) (rest rest' : List Item),
      (items_to_dataframe (it :: rest)).1 = (items_to_dataframe (it :: rest')).1)
    ∧ (∀ (id name : String) (c : ColumnValue) (cs : List ColumnValue)
        (rest : List Item),
      (items_to_dataframe (⟨id, name, c :: cs⟩ :: rest)).1
        = ["Item ID", "Item Name"] ++ (c :: cs).map (fun cv => cv.id)
      ∧ (items_to_dataframe (⟨id, name, c :: cs⟩ :: rest)).2.map
            (fun row => row.map (fun p => p.1))
        = List.replicate (rest.length + 1)
            (items_to_dataframe (⟨id, name, c :: cs⟩ :: rest)).1) := by
  refine ⟨fun id name rest => rfl, ?_, ?_⟩
  · intro it rest rest'
    cases h : it.column_values.isEmpty <;>
      simp [items_to_dataframe, h]
  · intro id name c cs rest
    constructor
    · simp [items_to_dataframe]
    · simp only [items_to_dataframe, List.isEmpty_cons, Bool.false_eq_true,
        if_false, List.map_map, List.map_cons]
      simp [Function.comp_def, List.map_const', List.replicate_succ]

end Calendly
